import Mathlib

/-!
Verification development for the photo-gallery backend (`src/main.py`).

The program is a FastAPI service with three endpoints:
  * `get_all_photos` (GET /photos)        -- paginated listing,
  * `upload_photo`   (POST /photos/upload) -- upload to the asset store
    (Cloudinary) and insert metadata into MongoDB,
  * `delete_photo`   (DELETE /photos/{id}) -- destroy the asset and delete
    the metadata record.

The embedding below models the MongoDB collection as a list of records in
insertion (natural) order, and the external asset store (Cloudinary) as an
oracle function returning `Except` values: `Except.error e` models the
Python call raising an exception whose `str()` is `e`.  Each handler
returns, besides the HTTP response data, the resulting store state and
boolean flags recording which backing calls were issued.
-/

/-- A MongoDB photo document, as built by `upload_photo` in `src/main.py`
(lines 96-103): title, Cloudinary public_id and secure_url, width/height
(defaulting to 0), and a creation timestamp.  The `_id` is the ObjectId,
kept as its 24-character hex string form. -/
structure Photo where
  _id : String
  title : String
  public_id : String
  secure_url : String
  width : Nat
  height : Nat
  created_at : Nat
deriving DecidableEq, Repr

/-- `bson.ObjectId.is_valid` on a string argument: true exactly for
24-character hexadecimal strings. -/
def ObjectId.is_valid (id : String) : Bool :=
  id.length == 24 &&
    id.toList.all (fun c =>
      c.isDigit || ('a' ≤ c && c ≤ 'f') || ('A' ≤ c && c ≤ 'F'))

/-- The MongoDB `photos` collection: documents in natural (insertion)
order. -/
structure MetaStore where
  photos : List Photo
deriving DecidableEq, Repr

/-- `photo_collection.count_documents({})`. -/
def MetaStore.count_documents (s : MetaStore) : Nat :=
  s.photos.length

/-- The sort key used by `find().sort("created_at", -1)`: descending
creation time. -/
def createdDesc (a b : Photo) : Prop :=
  b.created_at ≤ a.created_at

instance : DecidableRel createdDesc :=
  fun a b => Nat.decLe b.created_at a.created_at

instance : IsTotal Photo createdDesc :=
  ⟨fun a b => Nat.le_total b.created_at a.created_at⟩

instance : IsTrans Photo createdDesc :=
  ⟨fun _ _ _ h1 h2 => Nat.le_trans h2 h1⟩

/-- `photo_collection.find().sort("created_at", -1)`: the collection in
descending `created_at` order; the sort is stable, so ties keep insertion
order. -/
def MetaStore.find_sorted (s : MetaStore) : List Photo :=
  List.insertionSort createdDesc s.photos

/-- `photo_collection.find_one({"_id": oid})`: first document (in natural
order) whose `_id` matches. -/
def MetaStore.find_one (s : MetaStore) (oid : String) : Option Photo :=
  s.photos.find? (fun p => p._id == oid)

/-- `photo_collection.delete_one({"_id": oid})`: removes the first matching
document and reports `deleted_count` (1 if a document matched, else 0). -/
def MetaStore.delete_one (s : MetaStore) (oid : String) : MetaStore × Nat :=
  (⟨s.photos.eraseP (fun p => p._id == oid)⟩,
   if s.photos.any (fun p => p._id == oid) then 1 else 0)

/-- `photo_collection.insert_one(p)`: appends the document. -/
def MetaStore.insert_one (s : MetaStore) (p : Photo) : MetaStore :=
  ⟨s.photos ++ [p]⟩

/-- Response envelope of `get_all_photos` (`src/main.py` lines 69-75).
`page` and `limit` are the values after normalization, which in the code
are always positive, hence `Nat`. -/
structure ListResponse where
  photos : List Photo
  page : Nat
  limit : Nat
  total_photos : Nat
  total_pages : Nat
deriving DecidableEq, Repr

/-- `get_all_photos(page, limit)` (`src/main.py` lines 43-75).  Python
ints are modeled as `Int`; after the normalization `if page < 1: page = 1`
and `if limit < 1: limit = 10` both are positive, so the remaining
arithmetic is carried out in `Nat` (Python `//` on non-negative ints is
`Nat` division).  The cursor applies `.skip(skip).limit(limit)` and then
`to_list(length=limit)` caps the result at `limit` again, hence the two
`take limit`. -/
def get_all_photos (store : MetaStore) (page limit : Int) : ListResponse :=
  let page := if page < 1 then 1 else page
  let limit := if limit < 1 then 10 else limit
  let pageN := page.toNat
  let limitN := limit.toNat
  let skip := (pageN - 1) * limitN
  let total_photos := store.count_documents
  let photos := ((store.find_sorted.drop skip).take limitN).take limitN
  let total_pages := (total_photos + limitN - 1) / limitN
  { photos := photos, page := pageN, limit := limitN,
    total_photos := total_photos, total_pages := total_pages }

/-- The dictionary returned by `cloudinary.uploader.upload`: `public_id`,
`secure_url`, and optional `width`/`height` keys (read with
`.get("width", 0)` / `.get("height", 0)` in the code). -/
structure UploadResult where
  public_id : String
  secure_url : String
  width : Option Nat
  height : Option Nat
deriving DecidableEq, Repr

/-- A multipart upload file: its `filename` and its byte content. -/
structure UploadFile where
  filename : String
  content : List Nat
deriving DecidableEq, Repr

/-- Result of one `upload_photo` request: HTTP status, error detail (empty
on success), the JSON body photo on success, the resulting store, and
which backing calls were issued. -/
structure UploadResponse where
  status : Nat
  detail : String
  photo : Option Photo
  store : MetaStore
  upload_called : Bool
  insert_called : Bool
deriving DecidableEq, Repr

/-- `upload_photo(title, file)` (`src/main.py` lines 80-111).
`uploader` is the Cloudinary oracle: what `cloudinary.uploader.upload`
does on the given bytes (`Except.error e` models it raising an exception
with message `e`).  `now` is `datetime.utcnow()` and `new_id` the ObjectId
generated for the insert.  The guard is the code's
`if not file or not file.filename` (a missing file or an empty filename);
the byte content is not inspected.  On success the code re-reads the
inserted document by its id and returns it. -/
def upload_photo (store : MetaStore)
    (uploader : List Nat → Except String UploadResult)
    (now : Nat) (new_id : String)
    (title : String) (file : Option UploadFile) : UploadResponse :=
  match file with
  | none => ⟨400, "No file uploaded", none, store, false, false⟩
  | some f =>
    if f.filename = "" then
      ⟨400, "No file uploaded", none, store, false, false⟩
    else
      match uploader f.content with
      | Except.error e =>
        ⟨500, "An error occurred during upload: " ++ e, none, store, true, false⟩
      | Except.ok r =>
        let photo_data : Photo :=
          { _id := new_id, title := title,
            public_id := r.public_id, secure_url := r.secure_url,
            width := r.width.getD 0, height := r.height.getD 0,
            created_at := now }
        let store2 := store.insert_one photo_data
        ⟨200, "", store2.find_one new_id, store2, true, true⟩

/-- Result of one `delete_photo` request: HTTP status, detail (or success
message), the resulting store, and which backing calls were issued. -/
structure DeleteResponse where
  status : Nat
  detail : String
  store : MetaStore
  find_called : Bool
  destroy_called : Bool
  delete_called : Bool
deriving DecidableEq, Repr

/-- `str()` of a raised `HTTPException`, as produced by Starlette:
`"<status_code>: <detail>"`. -/
def httpExceptionStr (status : Nat) (detail : String) : String :=
  toString status ++ ": " ++ detail

/-- The message built by the blanket `except Exception` clause of
`delete_photo` (`src/main.py` line 140). -/
def deletionError (msg : String) : String :=
  "An error occurred during deletion: " ++ msg

/-- `delete_photo(id)` (`src/main.py` lines 114-140).  `s1` is the store
state observed by the `find_one` await and `s2` the state acted on by the
`delete_one` await; a concurrent writer may change the store between the
two awaits (sequential execution is the case `s1 = s2`).  `destroy` is
the Cloudinary oracle for `cloudinary.uploader.destroy` on a public_id.
The whole handler body sits in a `try` whose `except Exception` catches
every failure -- including the handler's own `HTTPException(400)` and
`HTTPException(404)` raises -- and re-raises status 500 with detail
`"An error occurred during deletion: " + str(e)`. -/
def delete_photo (s1 s2 : MetaStore)
    (destroy : String → Except String Unit)
    (id : String) : DeleteResponse :=
  if !(ObjectId.is_valid id) then
    ⟨500,
     deletionError (httpExceptionStr 400
       "Invalid ID format. Must be a 24-character hex string."),
     s2, false, false, false⟩
  else
    match s1.find_one id with
    | none =>
      ⟨500,
       deletionError (httpExceptionStr 404
         ("Photo with id " ++ id ++ " not found")),
       s2, true, false, false⟩
    | some photo =>
      match destroy photo.public_id with
      | Except.error e =>
        ⟨500, deletionError e, s2, true, true, false⟩
      | Except.ok _ =>
        let r := s2.delete_one id
        if r.2 = 1 then
          ⟨200, "Photo deleted successfully", r.1, true, true, true⟩
        else
          ⟨500,
           deletionError (httpExceptionStr 404
             ("Photo with id " ++ id ++ " was found but could not be deleted")),
           r.1, true, true, true⟩

/-- Sample photo used for concrete witnesses: distinct ids and creation
times. -/
def samplePhoto (i : Nat) : Photo :=
  { _id := toString i, title := "t" ++ toString i,
    public_id := "pid" ++ toString i, secure_url := "url" ++ toString i,
    width := 0, height := 0, created_at := i }

/-- A small concrete store with three photos. -/
def sampleStore : MetaStore :=
  ⟨[samplePhoto 0, samplePhoto 1, samplePhoto 2]⟩

/-- `get_all_photos` written as a single record: the two `take limit`
(cursor `.limit` and `to_list(length=limit)`) collapse into one. -/
theorem get_all_photos_def (store : MetaStore) (page limit : Int) :
    get_all_photos store page limit =
      { photos := (store.find_sorted.drop
            (((if page < 1 then 1 else page).toNat - 1) *
              (if limit < 1 then 10 else limit).toNat)).take
            (if limit < 1 then 10 else limit).toNat,
        page := (if page < 1 then 1 else page).toNat,
        limit := (if limit < 1 then 10 else limit).toNat,
        total_photos := store.photos.length,
        total_pages := (store.photos.length +
            (if limit < 1 then 10 else limit).toNat - 1) /
          (if limit < 1 then 10 else limit).toNat } := by
  simp only [get_all_photos, MetaStore.count_documents]
  rw [List.take_take, Nat.min_self]

/-- `get_all_photos` on already-positive `Nat` arguments: normalization is
the identity. -/
theorem get_all_photos_natCast (store : MetaStore) (page limit : Nat)
    (hp : 1 ≤ page) (hl : 1 ≤ limit) :
    get_all_photos store (page : Int) (limit : Int) =
      { photos := (store.find_sorted.drop ((page - 1) * limit)).take limit,
        page := page, limit := limit,
        total_photos := store.photos.length,
        total_pages := (store.photos.length + limit - 1) / limit } := by
  rw [get_all_photos_def]
  have h1 : (if (page : Int) < 1 then 1 else (page : Int)).toNat = page := by
    rw [if_neg (by omega)]; omega
  have h2 : (if (limit : Int) < 1 then 10 else (limit : Int)).toNat = limit := by
    rw [if_neg (by omega)]; omega
  rw [h1, h2]

/-- C1: the claim says a syntactically invalid id yields status 400.  The
code does make no backing call on that path, but its blanket
`except Exception` clause re-wraps the `HTTPException(400)` it raised, so
the surfaced status is 500, not 400: evaluated here at the invalid id
`"not-an-objectid"` on an empty store. -/
theorem delete_invalid_id_gives_500_no_calls :
    (delete_photo ⟨[]⟩ ⟨[]⟩ (fun _ => Except.ok ()) "not-an-objectid").status = 500 ∧
    ¬ (delete_photo ⟨[]⟩ ⟨[]⟩ (fun _ => Except.ok ()) "not-an-objectid").status = 400 ∧
    (delete_photo ⟨[]⟩ ⟨[]⟩ (fun _ => Except.ok ()) "not-an-objectid").find_called = false ∧
    (delete_photo ⟨[]⟩ ⟨[]⟩ (fun _ => Except.ok ()) "not-an-objectid").destroy_called = false ∧
    (delete_photo ⟨[]⟩ ⟨[]⟩ (fun _ => Except.ok ()) "not-an-objectid").delete_called = false := by
  decide

/-- C2: the claim says a well-formed id with no matching record yields
status 404.  The asset-store delete is indeed not invoked on that path,
but the blanket `except Exception` clause re-wraps the raised
`HTTPException(404)`, so the surfaced status is 500: evaluated here at the
valid 24-hex id `"0123456789abcdef01234567"` on an empty store. -/
theorem delete_missing_id_gives_500_no_destroy :
    (delete_photo ⟨[]⟩ ⟨[]⟩ (fun _ => Except.ok ()) "0123456789abcdef01234567").status = 500 ∧
    ¬ (delete_photo ⟨[]⟩ ⟨[]⟩ (fun _ => Except.ok ()) "0123456789abcdef01234567").status = 404 ∧
    (delete_photo ⟨[]⟩ ⟨[]⟩ (fun _ => Except.ok ()) "0123456789abcdef01234567").find_called = true ∧
    (delete_photo ⟨[]⟩ ⟨[]⟩ (fun _ => Except.ok ()) "0123456789abcdef01234567").destroy_called = false ∧
    (delete_photo ⟨[]⟩ ⟨[]⟩ (fun _ => Except.ok ()) "0123456789abcdef01234567").delete_called = false := by
  decide

/-- C3: every outcome of `delete_photo` is either the 200 success response
or a status-500 response whose detail starts with
"An error occurred during deletion: ", because the handler's blanket
`except Exception` clause catches and re-wraps the 400/404 errors raised
inside its own try block as well as store errors. -/
theorem delete_failures_all_500 (s1 s2 : MetaStore)
    (destroy : String → Except String Unit) (id : String) :
    (delete_photo s1 s2 destroy id).status = 200 ∨
    ((delete_photo s1 s2 destroy id).status = 500 ∧
      ∃ rest, (delete_photo s1 s2 destroy id).detail =
        "An error occurred during deletion: " ++ rest) := by
  unfold delete_photo deletionError
  split
  · exact Or.inr ⟨rfl, _, rfl⟩
  · split
    · exact Or.inr ⟨rfl, _, rfl⟩
    · split
      · exact Or.inr ⟨rfl, _, rfl⟩
      · dsimp only
        split
        · exact Or.inl rfl
        · exact Or.inr ⟨rfl, _, rfl⟩

/-- C4 counterexample: the claim says `limit` is coerced to a minimum
of 1, which at `limit = 0` would give 1; the code instead replaces any
`limit < 1` by the default 10. -/
theorem limit_zero_normalizes_to_ten :
    (get_all_photos ⟨[]⟩ 1 0).limit = 10 ∧
    ¬ (get_all_photos ⟨[]⟩ 1 0).limit = 1 := by
  decide

/-- C4 (amended): `page` is coerced to a minimum of 1 and `limit`, when
below 1, is replaced by the default 10 (so both are at least 1), before
any computation; the coerced values are the ones reported in the response
envelope, and re-running the query at the reported values reproduces the
response exactly (so they are the values used for skip and totalPages). -/
theorem get_all_photos_normalization (store : MetaStore) (page limit : Int) :
    (get_all_photos store page limit).page = (if page < 1 then 1 else page).toNat ∧
    (get_all_photos store page limit).limit = (if limit < 1 then 10 else limit).toNat ∧
    1 ≤ (get_all_photos store page limit).page ∧
    1 ≤ (get_all_photos store page limit).limit ∧
    get_all_photos store ((get_all_photos store page limit).page : Int)
      ((get_all_photos store page limit).limit : Int) = get_all_photos store page limit := by
  have hpage : (get_all_photos store page limit).page =
      (if page < 1 then 1 else page).toNat := rfl
  have hlimit : (get_all_photos store page limit).limit =
      (if limit < 1 then 10 else limit).toNat := rfl
  have hp1 : 1 ≤ (if page < 1 then 1 else page).toNat := by split <;> omega
  have hl1 : 1 ≤ (if limit < 1 then 10 else limit).toNat := by split <;> omega
  refine ⟨hpage, hlimit, hpage ▸ hp1, hlimit ▸ hl1, ?_⟩
  rw [hpage, hlimit]
  rw [get_all_photos_natCast store _ _ hp1 hl1, get_all_photos_def store page limit]

/-- C5: for normalized `page ≥ 1` and `limit ≥ 1`, `get_all_photos`
returns the records after skipping `(page - 1) * limit` of the
`createdAt`-descending order, at most `limit` of them, still in descending
order; `totalPages = (totalItems + limit - 1) / limit` in integer
arithmetic; the result is the empty sequence (not an error) when
`skip ≥ totalItems`, and in particular `items = []`, `totalPages = 0` when
`totalItems = 0`. -/
theorem get_all_photos_pagination (store : MetaStore) (page limit : Nat)
    (hp : 1 ≤ page) (hl : 1 ≤ limit) :
    (get_all_photos store (page : Int) (limit : Int)).photos =
        (store.find_sorted.drop ((page - 1) * limit)).take limit ∧
    (get_all_photos store (page : Int) (limit : Int)).photos.length ≤ limit ∧
    List.Sorted createdDesc (get_all_photos store (page : Int) (limit : Int)).photos ∧
    (get_all_photos store (page : Int) (limit : Int)).total_pages =
        (store.photos.length + limit - 1) / limit ∧
    (store.photos.length ≤ (page - 1) * limit →
        (get_all_photos store (page : Int) (limit : Int)).photos = []) ∧
    (store.photos.length = 0 →
        (get_all_photos store (page : Int) (limit : Int)).photos = [] ∧
        (get_all_photos store (page : Int) (limit : Int)).total_pages = 0) := by
  rw [get_all_photos_natCast store page limit hp hl]
  have hsorted : List.Sorted createdDesc store.find_sorted :=
    List.sorted_insertionSort createdDesc store.photos
  have hsub : ((store.find_sorted.drop ((page - 1) * limit)).take limit).Sublist
      store.find_sorted :=
    (List.take_sublist _ _).trans (List.drop_sublist _ _)
  have hlen : store.find_sorted.length = store.photos.length :=
    (List.perm_insertionSort createdDesc store.photos).length_eq
  refine ⟨rfl, List.length_take_le _ _, List.Pairwise.sublist hsub hsorted, rfl, ?_, ?_⟩
  · intro h
    rw [List.drop_eq_nil_of_le (by omega), List.take_nil]
  · intro h
    constructor
    · rw [List.drop_eq_nil_of_le (by omega), List.take_nil]
    · rw [h]
      exact Nat.div_eq_of_lt (by omega)

/-- C5 witness: the pagination facts instantiated at the concrete
three-photo store with `page = 2`, `limit = 2`. -/
theorem get_all_photos_pagination_witness :
    (get_all_photos sampleStore ((2 : Nat) : Int) ((2 : Nat) : Int)).photos =
        (sampleStore.find_sorted.drop ((2 - 1) * 2)).take 2 ∧
    (get_all_photos sampleStore ((2 : Nat) : Int) ((2 : Nat) : Int)).photos.length ≤ 2 ∧
    List.Sorted createdDesc (get_all_photos sampleStore ((2 : Nat) : Int) ((2 : Nat) : Int)).photos ∧
    (get_all_photos sampleStore ((2 : Nat) : Int) ((2 : Nat) : Int)).total_pages =
        (sampleStore.photos.length + 2 - 1) / 2 ∧
    (sampleStore.photos.length ≤ (2 - 1) * 2 →
        (get_all_photos sampleStore ((2 : Nat) : Int) ((2 : Nat) : Int)).photos = []) ∧
    (sampleStore.photos.length = 0 →
        (get_all_photos sampleStore ((2 : Nat) : Int) ((2 : Nat) : Int)).photos = [] ∧
        (get_all_photos sampleStore ((2 : Nat) : Int) ((2 : Nat) : Int)).total_pages = 0) :=
  get_all_photos_pagination sampleStore 2 2 (by decide) (by decide)

/-- Concatenating the first `m` chunks of size `k` of a list gives its
first `m * k` elements. -/
theorem chunks_flatMap_eq_take (l : List Photo) (k : Nat) :
    ∀ m : Nat, (List.range m).flatMap (fun i => (l.drop (i * k)).take k) =
      l.take (m * k)
  | 0 => by simp
  | m + 1 => by
    rw [List.range_succ, List.flatMap_append, chunks_flatMap_eq_take l k m]
    simp only [List.flatMap_cons, List.flatMap_nil, List.append_nil]
    rw [Nat.succ_mul, List.take_add]

/-- Ceiling division is enough: `n ≤ ((n + k - 1) / k) * k` for `k ≥ 1`. -/
theorem le_ceil_div_mul (n k : Nat) (hk : 1 ≤ k) : n ≤ ((n + k - 1) / k) * k := by
  obtain ⟨m, hm⟩ : ∃ m, k * ((n + k - 1) / k) = m := ⟨_, rfl⟩
  obtain ⟨r, hr⟩ : ∃ r, (n + k - 1) % k = r := ⟨_, rfl⟩
  have h1 := Nat.div_add_mod (n + k - 1) k
  have h2 : (n + k - 1) % k < k := Nat.mod_lt _ (by omega)
  rw [hm, hr] at h1
  rw [hr] at h2
  rw [Nat.mul_comm, hm]
  omega

/-- Concatenating all `(totalItems + k - 1) / k` chunks of size `k`
recovers the whole list. -/
theorem chunks_flatMap_complete (l : List Photo) (k : Nat) (hk : 1 ≤ k) :
    (List.range ((l.length + k - 1) / k)).flatMap
      (fun i => (l.drop (i * k)).take k) = l := by
  rw [chunks_flatMap_eq_take]
  exact List.take_of_length_le (le_ceil_div_mul l.length k hk)

/-- C10: for a fixed dataset and any `limit ≥ 1`, concatenating the items
of pages 1 through the reported `totalPages` yields every stored record
exactly once (a permutation of the collection). -/
theorem get_all_photos_pages_cover (store : MetaStore) (limit : Nat) (hl : 1 ≤ limit) :
    ((List.range (get_all_photos store ((1 : Nat) : Int) ((limit : Nat) : Int)).total_pages).flatMap
        (fun i => (get_all_photos store ((i + 1 : Nat) : Int) ((limit : Nat) : Int)).photos)).Perm
      store.photos := by
  have hlen : store.find_sorted.length = store.photos.length :=
    (List.perm_insertionSort createdDesc store.photos).length_eq
  have htp : (get_all_photos store ((1 : Nat) : Int) ((limit : Nat) : Int)).total_pages =
      (store.find_sorted.length + limit - 1) / limit := by
    rw [get_all_photos_natCast store 1 limit (by omega) hl, hlen]
  have hpage : ∀ i : Nat,
      (get_all_photos store ((i + 1 : Nat) : Int) ((limit : Nat) : Int)).photos =
        (store.find_sorted.drop (i * limit)).take limit := by
    intro i
    rw [get_all_photos_natCast store (i + 1) limit (by omega) hl]
    simp
  rw [htp, congrArg (List.flatMap (List.range ((store.find_sorted.length + limit - 1) / limit)))
    (funext hpage)]
  rw [chunks_flatMap_complete store.find_sorted limit hl]
  exact List.perm_insertionSort createdDesc store.photos

/-- C10 witness: pages of size 2 over the concrete three-photo store
cover the collection exactly once. -/
theorem get_all_photos_pages_cover_witness :
    ((List.range (get_all_photos sampleStore ((1 : Nat) : Int) (((2 : Nat) : Nat) : Int)).total_pages).flatMap
        (fun i => (get_all_photos sampleStore ((i + 1 : Nat) : Int) (((2 : Nat) : Nat) : Int)).photos)).Perm
      sampleStore.photos :=
  get_all_photos_pages_cover sampleStore 2 (by decide)

/-- C6: when the Cloudinary upload raises, `upload_photo` surfaces a
status-500 upload-failure error carrying the upstream message, the
metadata store receives no insert call, and the store is unchanged. -/
theorem upload_failure_no_insert (store : MetaStore)
    (uploader : List Nat → Except String UploadResult)
    (now : Nat) (new_id title : String) (f : UploadFile) (e : String)
    (hf : ¬ f.filename = "")
    (he : uploader f.content = Except.error e) :
    (upload_photo store uploader now new_id title (some f)).status = 500 ∧
    (upload_photo store uploader now new_id title (some f)).detail =
      "An error occurred during upload: " ++ e ∧
    (upload_photo store uploader now new_id title (some f)).insert_called = false ∧
    (upload_photo store uploader now new_id title (some f)).photo = none ∧
    (upload_photo store uploader now new_id title (some f)).store = store := by
  simp only [upload_photo]
  rw [if_neg hf, he]
  exact ⟨rfl, rfl, rfl, rfl, rfl⟩

/-- C6 witness: a failing uploader at a concrete request inserts nothing. -/
theorem upload_failure_no_insert_witness :
    (upload_photo sampleStore (fun _ => Except.error "boom") 7 "n" "t"
        (some ⟨"a.png", [1, 2]⟩)).status = 500 ∧
    (upload_photo sampleStore (fun _ => Except.error "boom") 7 "n" "t"
        (some ⟨"a.png", [1, 2]⟩)).detail = "An error occurred during upload: " ++ "boom" ∧
    (upload_photo sampleStore (fun _ => Except.error "boom") 7 "n" "t"
        (some ⟨"a.png", [1, 2]⟩)).insert_called = false ∧
    (upload_photo sampleStore (fun _ => Except.error "boom") 7 "n" "t"
        (some ⟨"a.png", [1, 2]⟩)).photo = none ∧
    (upload_photo sampleStore (fun _ => Except.error "boom") 7 "n" "t"
        (some ⟨"a.png", [1, 2]⟩)).store = sampleStore :=
  upload_failure_no_insert sampleStore (fun _ => Except.error "boom") 7 "n" "t"
    ⟨"a.png", [1, 2]⟩ "boom" (by decide) rfl

/-- C8: on a passing guard and successful upload, the returned record's
`public_id`/`secure_url` are exactly what the asset store returned, and
`width`/`height` are the reported dimensions, defaulting to 0 for each
dimension the asset store does not report. -/
theorem upload_success_fields (store : MetaStore)
    (uploader : List Nat → Except String UploadResult)
    (now : Nat) (new_id title : String) (f : UploadFile) (r : UploadResult)
    (hf : ¬ f.filename = "")
    (hu : uploader f.content = Except.ok r)
    (hfresh : ∀ p ∈ store.photos, ¬ p._id = new_id) :
    (upload_photo store uploader now new_id title (some f)).status = 200 ∧
    (upload_photo store uploader now new_id title (some f)).photo =
      some { _id := new_id, title := title, public_id := r.public_id,
             secure_url := r.secure_url, width := r.width.getD 0,
             height := r.height.getD 0, created_at := now } ∧
    (upload_photo store uploader now new_id title (some f)).insert_called = true := by
  simp only [upload_photo]
  rw [if_neg hf, hu]
  refine ⟨rfl, ?_, rfl⟩
  show (store.insert_one _).find_one new_id = _
  unfold MetaStore.insert_one MetaStore.find_one
  rw [List.find?_append]
  have hnone : store.photos.find? (fun p => p._id == new_id) = none :=
    List.find?_eq_none.mpr (fun x hx => by simpa using hfresh x hx)
  rw [hnone]
  simp

/-- C8 witness: the field mapping at a concrete successful upload with an
unreported height. -/
theorem upload_success_fields_witness :
    (upload_photo sampleStore (fun _ => Except.ok ⟨"pid9", "url9", some 640, none⟩)
        7 "nine" "t9" (some ⟨"a.png", [1]⟩)).status = 200 ∧
    (upload_photo sampleStore (fun _ => Except.ok ⟨"pid9", "url9", some 640, none⟩)
        7 "nine" "t9" (some ⟨"a.png", [1]⟩)).photo =
      some { _id := "nine", title := "t9",
             public_id := UploadResult.public_id ⟨"pid9", "url9", some 640, none⟩,
             secure_url := UploadResult.secure_url ⟨"pid9", "url9", some 640, none⟩,
             width := (UploadResult.width ⟨"pid9", "url9", some 640, none⟩).getD 0,
             height := (UploadResult.height ⟨"pid9", "url9", some 640, none⟩).getD 0,
             created_at := 7 } ∧
    (upload_photo sampleStore (fun _ => Except.ok ⟨"pid9", "url9", some 640, none⟩)
        7 "nine" "t9" (some ⟨"a.png", [1]⟩)).insert_called = true :=
  upload_success_fields sampleStore (fun _ => Except.ok ⟨"pid9", "url9", some 640, none⟩)
    7 "nine" "t9" ⟨"a.png", [1]⟩ ⟨"pid9", "url9", some 640, none⟩
    (by decide) rfl (by decide)

/-- C9 counterexample: a present file whose byte content is empty but
whose filename is non-empty passes the guard: the Cloudinary upload and
the metadata insert are both attempted and the status is not 400.  The
code's check `if not file or not file.filename` inspects only the
filename, never the byte content. -/
theorem empty_content_file_is_uploaded :
    ¬ (upload_photo ⟨[]⟩ (fun _ => Except.ok ⟨"pid", "url", none, none⟩) 0 "n" "t"
        (some ⟨"a.png", []⟩)).status = 400 ∧
    (upload_photo ⟨[]⟩ (fun _ => Except.ok ⟨"pid", "url", none, none⟩) 0 "n" "t"
        (some ⟨"a.png", []⟩)).upload_called = true ∧
    (upload_photo ⟨[]⟩ (fun _ => Except.ok ⟨"pid", "url", none, none⟩) 0 "n" "t"
        (some ⟨"a.png", []⟩)).insert_called = true := by
  decide

/-- C9 (amended): for every upload request whose file is missing or whose
filename is empty, the endpoint returns status 400 without attempting the
asset-store upload or the metadata insert (and the store is unchanged);
the byte content itself is not checked. -/
theorem missing_file_gives_400_no_calls (store : MetaStore)
    (uploader : List Nat → Except String UploadResult)
    (now : Nat) (new_id title : String) (file : Option UploadFile)
    (h : file = none ∨ ∃ f, file = some f ∧ f.filename = "") :
    (upload_photo store uploader now new_id title file).status = 400 ∧
    (upload_photo store uploader now new_id title file).upload_called = false ∧
    (upload_photo store uploader now new_id title file).insert_called = false ∧
    (upload_photo store uploader now new_id title file).store = store := by
  rcases h with rfl | ⟨f, rfl, hf⟩
  · exact ⟨rfl, rfl, rfl, rfl⟩
  · simp only [upload_photo]
    rw [if_pos hf]
    exact ⟨rfl, rfl, rfl, rfl⟩

/-- C9 witness: the amended guard at a concrete request with no file. -/
theorem missing_file_gives_400_no_calls_witness :
    (upload_photo sampleStore (fun _ => Except.ok ⟨"pid", "url", none, none⟩)
        0 "n" "t" none).status = 400 ∧
    (upload_photo sampleStore (fun _ => Except.ok ⟨"pid", "url", none, none⟩)
        0 "n" "t" none).upload_called = false ∧
    (upload_photo sampleStore (fun _ => Except.ok ⟨"pid", "url", none, none⟩)
        0 "n" "t" none).insert_called = false ∧
    (upload_photo sampleStore (fun _ => Except.ok ⟨"pid", "url", none, none⟩)
        0 "n" "t" none).store = sampleStore :=
  missing_file_gives_400_no_calls sampleStore (fun _ => Except.ok ⟨"pid", "url", none, none⟩)
    0 "n" "t" none (Or.inl rfl)

/-- C7: in `delete_photo` the metadata existence check precedes any
destructive call (the asset destroy happens only after a successful
lookup), the asset-store destroy precedes the metadata delete (the
metadata delete happens only after the destroy returned successfully),
and if the destroy raises, the operation aborts with a status-500 server
error without issuing the metadata delete, leaving the metadata store
unchanged. -/
theorem delete_ordering (s1 s2 : MetaStore)
    (destroy : String → Except String Unit) (id : String) :
    ((delete_photo s1 s2 destroy id).destroy_called = true →
      ObjectId.is_valid id = true ∧ ∃ p, s1.find_one id = some p) ∧
    ((delete_photo s1 s2 destroy id).delete_called = true →
      (delete_photo s1 s2 destroy id).destroy_called = true ∧
      ∃ p, s1.find_one id = some p ∧ destroy p.public_id = Except.ok ()) ∧
    (∀ p e, s1.find_one id = some p → destroy p.public_id = Except.error e →
      (delete_photo s1 s2 destroy id).status = 500 ∧
      (delete_photo s1 s2 destroy id).delete_called = false ∧
      (delete_photo s1 s2 destroy id).store = s2) := by
  unfold delete_photo
  split
  · exact ⟨fun h => Bool.noConfusion h, fun h => Bool.noConfusion h,
      fun p e _ _ => ⟨rfl, rfl, rfl⟩⟩
  · rename_i hv
    have hv' : ObjectId.is_valid id = true := by simpa using hv
    split
    · rename_i hfo
      refine ⟨fun h => Bool.noConfusion h, fun h => Bool.noConfusion h, ?_⟩
      intro p e hf _
      rw [hfo] at hf
      exact Option.noConfusion hf
    · rename_i photo hfo
      split
      · rename_i e' hdo
        refine ⟨fun _ => ⟨hv', photo, hfo⟩, fun h => Bool.noConfusion h, ?_⟩
        intro p e hf _
        exact ⟨rfl, rfl, rfl⟩
      · rename_i a hdo
        have hconc : ∀ p e, s1.find_one id = some p →
            destroy p.public_id = Except.error e → False := by
          intro p e hf hd
          rw [hfo] at hf
          injection hf with hf
          rw [hf] at hdo
          rw [hdo] at hd
          exact Except.noConfusion hd
        dsimp only
        split
        · exact ⟨fun _ => ⟨hv', photo, hfo⟩,
            fun _ => ⟨rfl, photo, hfo, by rw [hdo]⟩,
            fun p e hf hd => (hconc p e hf hd).elim⟩
        · exact ⟨fun _ => ⟨hv', photo, hfo⟩,
            fun _ => ⟨rfl, photo, hfo, by rw [hdo]⟩,
            fun p e hf hd => (hconc p e hf hd).elim⟩

/-- C7 witness: with a failing asset store at a concrete valid id found in
the store, the delete aborts with 500 and the metadata is untouched. -/
theorem delete_ordering_witness :
    let idw : String := "aaaaaaaaaaaaaaaaaaaaaaaa"
    let pw : Photo := ⟨idw, "t", "pidw", "urlw", 0, 0, 3⟩
    let sw : MetaStore := ⟨[pw]⟩
    let dw : String → Except String Unit := fun _ => Except.error "cloud down"
    ((delete_photo sw sw dw idw).destroy_called = true →
      ObjectId.is_valid idw = true ∧ ∃ p, sw.find_one idw = some p) ∧
    ((delete_photo sw sw dw idw).delete_called = true →
      (delete_photo sw sw dw idw).destroy_called = true ∧
      ∃ p, sw.find_one idw = some p ∧ dw p.public_id = Except.ok ()) ∧
    (∀ p e, sw.find_one idw = some p → dw p.public_id = Except.error e →
      (delete_photo sw sw dw idw).status = 500 ∧
      (delete_photo sw sw dw idw).delete_called = false ∧
      (delete_photo sw sw dw idw).store = sw) :=
  delete_ordering ⟨[⟨"aaaaaaaaaaaaaaaaaaaaaaaa", "t", "pidw", "urlw", 0, 0, 3⟩]⟩
    ⟨[⟨"aaaaaaaaaaaaaaaaaaaaaaaa", "t", "pidw", "urlw", 0, 0, 3⟩]⟩
    (fun _ => Except.error "cloud down") "aaaaaaaaaaaaaaaaaaaaaaaa"
